import Mathlib

/-!
Shallow embedding of `src/lib/writer/delete.ts` from the cirql repository:
the immutable DELETE query writer (state, configuration operations,
rendering) and its factory functions.

Modelling conventions:
* TS `undefined` fields are `Option` values.
* The TS truthiness tests in `toQuery` (`if (where)`, `else if (returnMode)`,
  `if (timeout)`) become explicit tests: a string is truthy iff non-empty,
  a number truthy iff nonzero, `undefined` falsy.
* Errors are an inductive: `CirqlWriterError` for the writer's own
  configuration errors (`throw new CirqlWriterError(...)`) and a generic
  error for `throw new Error(...)`.
* Externals from `helpers.ts` / `parser.ts` (not under `src/`) are modelled
  from the spec where a claim needs them; see the doc comments below.
-/

namespace Cirql

/-- Error values thrown by the writer. `cirqlWriterError` embeds the
`CirqlWriterError` class from `src/lib/errors`; `genericError` embeds a
plain JS `Error`. -/
inductive Err where
  | cirqlWriterError (msg : String)
  | genericError (msg : String)
deriving DecidableEq, Repr

/-- The `Quantity` type from `writer/types` ("cardinality" in the spec):
expected result count of a query. -/
inductive Quantity where
  | zero
  | maybe
  | one
  | many
deriving DecidableEq, Repr

/-- Modelled from the spec: the `ReturnMode` type from `writer/types`
(not under `src/`), "which version of affected records (before change,
after change, diff, none) the database should report back".  The writer
stores it as a string and renders it with `toUpperCase()`. -/
inductive ReturnMode where
  | before
  | after
  | none_
  | diff
deriving DecidableEq, Repr

/-- The string stored for a `ReturnMode`, uppercased as
`returnMode.toUpperCase()` does in `toQuery`. -/
def ReturnMode.toUpperCase : ReturnMode → String
  | .before => "BEFORE"
  | .after => "AFTER"
  | .none_ => "NONE"
  | .diff => "DIFF"

/-- The state's `returnMode` field has type `ReturnMode | 'fields'`
(`DeleteQueryState.returnMode` in delete.ts). -/
inductive StateReturnMode where
  | fields
  | mode (m : ReturnMode)
deriving DecidableEq, Repr

/-- Modelled from the spec: a zod schema value attached via
`with`/`withSchema`/`withAny` ("opaque validator"; zod itself is an
external library).  `zObject shape` stands for `z.object(shape)`,
`zAny` for `z.any()`, `custom` for any other validator. -/
inductive ZodSchema where
  | zAny
  | zObject (shape : List String)
  | custom (id : Nat)
deriving DecidableEq, Repr

/-- The `DeleteQueryState` interface of delete.ts.  `schema : S` is
`null` or a zod validator, hence `Option ZodSchema`; `where` and
`timeout` may be `undefined`, hence `Option`.  The TS `where` field is
spelled `where_` because `where` is reserved in Lean.  `timeout` (a TS
`number`; the claims only concern integral values) is an `Int`. -/
structure DeleteQueryState where
  schema : Option ZodSchema
  quantity : Quantity
  targets : String
  where_ : Option String
  returnMode : Option StateReturnMode
  returnFields : List String
  timeout : Option Int
  parallel : Bool
  unrelate : Bool
deriving DecidableEq, Repr

/-- An argument to `where`: either a literal string, or a structured
`Where<S>` predicate.  The predicate case carries the string produced by
the external `parseWhereClause` compiler (`parser.ts`, not under `src/`;
the spec treats it as a black box `compile(predicate) -> string`). -/
inductive WhereArg where
  | str (s : String)
  | obj (compiled : String)
deriving DecidableEq, Repr

/-- The text `where` stores: a string argument verbatim, an object
argument via `parseWhereClause` (represented by its compiled text). -/
def WhereArg.text : WhereArg → String
  | .str s => s
  | .obj c => c

namespace DeleteQueryWriter

/-- `DeleteQueryWriter.with(schema)`: new state with `schema` replaced.
Named `with_` because `with` is reserved in Lean. -/
def with_ (s : DeleteQueryState) (schema : ZodSchema) : DeleteQueryState :=
  { s with schema := some schema }

/-- `DeleteQueryWriter.withSchema(schema)`: short for
`with(z.object(schema))`. -/
def withSchema (s : DeleteQueryState) (shape : List String) : DeleteQueryState :=
  with_ s (.zObject shape)

/-- `DeleteQueryWriter.withAny()`: short for `with(z.any())`. -/
def withAny (s : DeleteQueryState) : DeleteQueryState :=
  with_ s .zAny

/-- `DeleteQueryWriter.where(where)`: throws `CirqlWriterError` when the
state's `unrelate` flag is set; otherwise returns a new state with the
`where` field replaced by the argument's text. -/
def where_ (s : DeleteQueryState) (w : WhereArg) : Except Err DeleteQueryState :=
  if s.unrelate then
    .error (.cirqlWriterError "Cannot use where clause with delRelation")
  else
    .ok { s with where_ := some w.text }

/-- `DeleteQueryWriter.return(mode)`: new state with `returnMode`
replaced (the source does not touch `returnFields`).  Named `return_`
because `return` is reserved in Lean. -/
def return_ (s : DeleteQueryState) (mode : ReturnMode) : DeleteQueryState :=
  { s with returnMode := some (.mode mode) }

/-- `DeleteQueryWriter.returnFields(...fields)`: new state with
`returnMode := 'fields'` and `returnFields` replaced. -/
def returnFields (s : DeleteQueryState) (fields : List String) : DeleteQueryState :=
  { s with returnMode := some .fields, returnFields := fields }

/-- `DeleteQueryWriter.timeout(timeout)`: new state with `timeout`
replaced. -/
def timeout (s : DeleteQueryState) (t : Int) : DeleteQueryState :=
  { s with timeout := some t }

/-- `DeleteQueryWriter.parallel()`: new state with `parallel := true`. -/
def parallel (s : DeleteQueryState) : DeleteQueryState :=
  { s with parallel := true }

/-- `DeleteQueryWriter.toQuery()`: throws a plain `Error` when `targets`
is falsy (the empty string), otherwise builds the query text by
appending each clause fragment under its truthiness test, in source
order: WHERE, RETURN, TIMEOUT, PARALLEL. -/
def toQuery (s : DeleteQueryState) : Except Err String :=
  if s.targets = "" then
    .error (.genericError "No targets specified")
  else
    let b := "DELETE " ++ s.targets
    let b := match s.where_ with
      | some w => if w = "" then b else b ++ " WHERE " ++ w
      | none => b
    let b := match s.returnMode with
      | some .fields => b ++ " RETURN " ++ String.intercalate ", " s.returnFields
      | some (.mode m) => b ++ " RETURN " ++ m.toUpperCase
      | none => b
    let b := match s.timeout with
      | some t => if t = 0 then b else b ++ " TIMEOUT " ++ toString t ++ "s"
      | none => b
    let b := if s.parallel then b ++ " PARALLEL" else b
    .ok b

end DeleteQueryWriter

/-- Modelled from the spec: a `SurrealValue` argument to `del`.  The
external safe value renderer `useSurrealValueUnsafe` (helpers.ts, not
under `src/`) converts each target to its textual form, so a non-list
value is represented by that rendered text; `listLike` is a value the
external `isListLike` guard recognises as a sequence. -/
inductive SurrealValue where
  | scalar (rendered : String)
  | listLike (items : List String)
deriving DecidableEq, Repr

/-- Modelled from the spec: `isListLike(...targets)` (helpers.ts, not
under `src/`) is true when any argument is a sequence-like value. -/
def isListLike (vs : List SurrealValue) : Bool :=
  vs.any fun v => match v with
    | .listLike _ => true
    | .scalar _ => false

/-- Modelled from the spec: `useSurrealValueUnsafe(value)` (helpers.ts,
not under `src/`), the external safe value renderer.  `del` only reaches
it after the `isListLike` guard, so the `listLike` case is never used
there; we render it as the joined items. -/
def useSurrealValueUnsafe : SurrealValue → String
  | .scalar s => s
  | .listLike items => String.intercalate ", " items

/-- `del(...targets)`: throws `CirqlWriterError` on zero targets or on a
list-like target; otherwise the initial bulk-delete state. -/
def del (targets : List SurrealValue) : Except Err DeleteQueryState :=
  if targets.length = 0 then
    .error (.cirqlWriterError "At least one target must be specified")
  else if isListLike targets then
    .error (.cirqlWriterError "Multiple targets must be specified seperately")
  else
    .ok {
      schema := none
      quantity := .many
      targets := String.intercalate ", " (targets.map useSurrealValueUnsafe)
      where_ := none
      returnMode := some (.mode .before)
      returnFields := []
      timeout := none
      parallel := false
      unrelate := false
    }

/-- The `RecordRelation` value passed to `delRelation`: its edge table
and the two endpoint records (the latter only feed the pre-computed
where clause through externals). -/
structure RecordRelation where
  edge : String
  fromRecord : String
  toRecord : String
deriving DecidableEq, Repr

/-- Modelled from the spec: the where text `delRelation` pre-computes
via the external `parseWhereClause({in: eq(from), out: eq(to)})`
(`parser.ts` / `helpers.ts` / `sql/operators.ts`, not under `src/`);
the spec gives its shape as `in = <from-endpoint> AND out = <to-endpoint>`. -/
def relationWhereText (r : RecordRelation) : String :=
  "in = " ++ r.fromRecord ++ " AND out = " ++ r.toRecord

/-- `delRelation(relation)`: the initial relation-edge delete state,
with the pre-computed filter and `unrelate := true`. -/
def delRelation (r : RecordRelation) : DeleteQueryState :=
  { schema := none
    quantity := .maybe
    targets := r.edge
    where_ := some (relationWhereText r)
    returnMode := some (.mode .before)
    returnFields := []
    timeout := none
    parallel := false
    unrelate := true }

/-- The text `toQuery` contributes for the `where` field: appended only
when the stored string is truthy (defined and non-empty). -/
def whereFragment : Option String → String
  | some w => if w = "" then "" else " WHERE " ++ w
  | none => ""

/-- The text `toQuery` contributes for the return mode: the comma-joined
fields for `'fields'`, the uppercased mode for any other defined mode,
nothing when undefined. -/
def returnFragment : Option StateReturnMode → List String → String
  | some .fields, fs => " RETURN " ++ String.intercalate ", " fs
  | some (.mode m), _ => " RETURN " ++ m.toUpperCase
  | none, _ => ""

/-- The text `toQuery` contributes for the timeout: appended only when
the stored number is truthy (defined and nonzero). -/
def timeoutFragment : Option Int → String
  | some t => if t = 0 then "" else " TIMEOUT " ++ toString t ++ "s"
  | none => ""

/-- The text `toQuery` contributes for the parallel flag. -/
def parallelFragment : Bool → String
  | true => " PARALLEL"
  | false => ""

/-- A configuration call on a writer, with its argument: used to state
properties over arbitrary chains of prior calls. -/
inductive Op where
  | withOp (sch : ZodSchema)
  | withSchemaOp (shape : List String)
  | withAnyOp
  | whereOp (w : WhereArg)
  | returnOp (m : ReturnMode)
  | returnFieldsOp (fs : List String)
  | timeoutOp (t : Int)
  | parallelOp
deriving DecidableEq, Repr

/-- Apply one configuration call to a state (only `where` can fail). -/
def applyOp (s : DeleteQueryState) : Op → Except Err DeleteQueryState
  | .withOp sch => .ok (DeleteQueryWriter.with_ s sch)
  | .withSchemaOp shape => .ok (DeleteQueryWriter.withSchema s shape)
  | .withAnyOp => .ok (DeleteQueryWriter.withAny s)
  | .whereOp w => DeleteQueryWriter.where_ s w
  | .returnOp m => .ok (DeleteQueryWriter.return_ s m)
  | .returnFieldsOp fs => .ok (DeleteQueryWriter.returnFields s fs)
  | .timeoutOp t => .ok (DeleteQueryWriter.timeout s t)
  | .parallelOp => .ok (DeleteQueryWriter.parallel s)

/-- Apply a chain of configuration calls left to right, stopping at the
first failure. -/
def applyOps (s : DeleteQueryState) : List Op → Except Err DeleteQueryState
  | [] => .ok s
  | op :: rest =>
    match applyOp s op with
    | .ok s2 => applyOps s2 rest
    | .error e => .error e

/-- How many of the nine state fields differ between two states. -/
def fieldDiffCount (a b : DeleteQueryState) : Nat :=
  (if a.schema = b.schema then 0 else 1) +
  (if a.quantity = b.quantity then 0 else 1) +
  (if a.targets = b.targets then 0 else 1) +
  (if a.where_ = b.where_ then 0 else 1) +
  (if a.returnMode = b.returnMode then 0 else 1) +
  (if a.returnFields = b.returnFields then 0 else 1) +
  (if a.timeout = b.timeout then 0 else 1) +
  (if a.parallel = b.parallel then 0 else 1) +
  (if a.unrelate = b.unrelate then 0 else 1)

/-- Whether the result of rendering a state is a failure of the
`CirqlWriterError` (configuration-error) class. -/
def renderErrIsConfig (s : DeleteQueryState) : Bool :=
  match DeleteQueryWriter.toQuery s with
  | .error (.cirqlWriterError _) => true
  | _ => false

/-- A concrete non-relation writer state, as produced by
`del("person")`: used as the base of concrete witnesses. -/
def plainState : DeleteQueryState :=
  { schema := none, quantity := .many, targets := "person", where_ := none,
    returnMode := some (.mode .before), returnFields := [], timeout := none,
    parallel := false, unrelate := false }

/-- A concrete state with filter, fields-return, timeout and parallel
all set. -/
def fullState : DeleteQueryState :=
  { plainState with
    where_ := some "age > 3",
    returnMode := some StateReturnMode.fields,
    returnFields := ["name", "id"],
    timeout := some 5,
    parallel := true }

/-- A concrete writer state whose `targets` is the empty string. -/
def noTargetsState : DeleteQueryState :=
  { plainState with targets := "" }

/-- A concrete state in fields-return mode with a non-empty field list. -/
def fieldsState : DeleteQueryState :=
  { plainState with returnMode := some .fields, returnFields := ["name"] }

/-- On any state with non-empty targets, `toQuery` succeeds and its
output decomposes into the head plus the four clause fragments in
source order. -/
theorem toQuery_eq_fragments (s : DeleteQueryState) (h : s.targets ≠ "") :
    DeleteQueryWriter.toQuery s =
      .ok ("DELETE " ++ s.targets ++ whereFragment s.where_
        ++ returnFragment s.returnMode s.returnFields
        ++ timeoutFragment s.timeout ++ parallelFragment s.parallel) := by
  rw [DeleteQueryWriter.toQuery, if_neg h]
  rcases s with ⟨sch, q, t, w, rm, rf, ti, p, u⟩
  rcases w with _ | w <;> rcases rm with _ | (_ | m) <;> rcases ti with _ | n <;>
    rcases p with _ | _ <;>
    simp [whereFragment, returnFragment, timeoutFragment, parallelFragment,
      String.append_assoc] <;>
    split_ifs <;>
    first
      | rfl
      | simp [String.append_assoc]

/-- No configuration call changes the `unrelate` flag. -/
theorem applyOp_unrelate {s s2 : DeleteQueryState} {op : Op}
    (h : applyOp s op = .ok s2) : s2.unrelate = s.unrelate := by
  cases op with
  | whereOp w =>
    simp only [applyOp, DeleteQueryWriter.where_] at h
    split at h
    · exact Except.noConfusion h
    · rw [Except.ok.injEq] at h
      subst h
      rfl
  | withOp sch => simp only [applyOp, Except.ok.injEq] at h; subst h; rfl
  | withSchemaOp shape => simp only [applyOp, Except.ok.injEq] at h; subst h; rfl
  | withAnyOp => simp only [applyOp, Except.ok.injEq] at h; subst h; rfl
  | returnOp m => simp only [applyOp, Except.ok.injEq] at h; subst h; rfl
  | returnFieldsOp fs => simp only [applyOp, Except.ok.injEq] at h; subst h; rfl
  | timeoutOp t => simp only [applyOp, Except.ok.injEq] at h; subst h; rfl
  | parallelOp => simp only [applyOp, Except.ok.injEq] at h; subst h; rfl

/-- No chain of configuration calls changes the `unrelate` flag. -/
theorem applyOps_unrelate {ops : List Op} {s s2 : DeleteQueryState}
    (h : applyOps s ops = .ok s2) : s2.unrelate = s.unrelate := by
  induction ops generalizing s with
  | nil =>
    rw [applyOps, Except.ok.injEq] at h
    subst h
    rfl
  | cons op rest ih =>
    rw [applyOps] at h
    cases hstep : applyOp s op with
    | ok s1 =>
      rw [hstep] at h
      exact (ih h).trans (applyOp_unrelate hstep)
    | error e =>
      rw [hstep] at h
      exact Except.noConfusion h

/-- Claim C1: for a state with non-empty targets, a truthy filter, the
fields return mode, a nonzero timeout and parallel enabled, `toQuery`
returns `DELETE <targets>` followed by ` WHERE <filter>`,
` RETURN <comma-joined returnFields>`, ` TIMEOUT <n>s`, ` PARALLEL` in
exactly that order; and in general each fragment is appended, in that
fixed order, exactly when its field is set (fields mode joins the
fields with a comma and space, any other defined mode is uppercased,
an absent mode contributes nothing). -/
theorem delete_render_clause_order :
    (∀ (s : DeleteQueryState) (w : String) (n : Int),
      s.targets ≠ "" → s.where_ = some w → w ≠ "" →
      s.returnMode = some .fields → s.returnFields ≠ [] →
      s.timeout = some n → n ≠ 0 → s.parallel = true →
      DeleteQueryWriter.toQuery s =
        .ok ("DELETE " ++ s.targets ++ " WHERE " ++ w ++ " RETURN "
          ++ String.intercalate ", " s.returnFields
          ++ " TIMEOUT " ++ toString n ++ "s" ++ " PARALLEL")) ∧
    (∀ s : DeleteQueryState, s.targets ≠ "" →
      DeleteQueryWriter.toQuery s =
        .ok ("DELETE " ++ s.targets ++ whereFragment s.where_
          ++ returnFragment s.returnMode s.returnFields
          ++ timeoutFragment s.timeout ++ parallelFragment s.parallel)) := by
  constructor
  · intro s w n ht hw hw2 hm hf hn hn2 hp
    rw [toQuery_eq_fragments s ht, hw, hm, hn, hp]
    simp [whereFragment, returnFragment, timeoutFragment, parallelFragment,
      hw2, hn2, String.append_assoc]
  · exact toQuery_eq_fragments

/-- Witness for C1: a concrete fully-configured state renders with the
four fragments in order. -/
theorem delete_render_clause_order_witness :
    DeleteQueryWriter.toQuery fullState =
      .ok "DELETE person WHERE age > 3 RETURN name, id TIMEOUT 5s PARALLEL" := by
  have h := delete_render_clause_order.1 fullState
    "age > 3" 5 (by decide) rfl (by decide) rfl (by decide) rfl (by decide) rfl
  exact h.trans rfl

/-- Claim C2: on any state reachable from `delRelation` by any chain of
successful configuration calls, `where` fails with the
`CirqlWriterError` configuration error naming the rule, whatever its
argument, and produces no new state. -/
theorem delRelation_where_locked (r : RecordRelation) (ops : List Op)
    (s : DeleteQueryState) (arg : WhereArg)
    (h : applyOps (delRelation r) ops = .ok s) :
    DeleteQueryWriter.where_ s arg =
      .error (.cirqlWriterError "Cannot use where clause with delRelation") := by
  have hu : s.unrelate = true := applyOps_unrelate h
  rw [DeleteQueryWriter.where_, if_pos hu]

/-- Witness for C2: a relation-delete writer configured with a timeout
and parallel still rejects `where`. -/
theorem delRelation_where_locked_witness :
    DeleteQueryWriter.where_
      (DeleteQueryWriter.parallel
        (DeleteQueryWriter.timeout (delRelation ⟨"knows", "person:1", "person:2"⟩) 5))
      (.str "x") =
      .error (.cirqlWriterError "Cannot use where clause with delRelation") :=
  delRelation_where_locked ⟨"knows", "person:1", "person:2"⟩
    [.timeoutOp 5, .parallelOp] _ (.str "x") rfl

/-- Counterexample to C3 as stated: on empty targets `toQuery` raises a
plain `Error` (`throw new Error('No targets specified')` in the source),
which is not the writer's `CirqlWriterError` configuration-error class
that the claim (and the spec's §7 taxonomy for the other three errors)
designates. -/
theorem toQuery_no_targets_plain_error :
    DeleteQueryWriter.toQuery noTargetsState =
      .error (.genericError "No targets specified") ∧
    renderErrIsConfig noTargetsState = false :=
  ⟨rfl, rfl⟩

/-- Claim C3 (amended): `toQuery` fails if and only if `targets` is
empty; the failure is a plain error (not the `CirqlWriterError` class)
whose message "No targets specified" identifies the violated rule, and
every state with non-empty targets renders to a string without
raising. -/
theorem toQuery_fails_iff_no_targets (s : DeleteQueryState) :
    (DeleteQueryWriter.toQuery s = .error (.genericError "No targets specified") ↔
      s.targets = "") ∧
    (∀ e, DeleteQueryWriter.toQuery s = .error e →
      e = .genericError "No targets specified") ∧
    (s.targets ≠ "" → ∃ q, DeleteQueryWriter.toQuery s = .ok q) := by
  refine ⟨⟨fun h => ?_, fun h => ?_⟩, fun e he => ?_, fun h => ?_⟩
  · by_contra hne
    rw [toQuery_eq_fragments s hne] at h
    exact Except.noConfusion h
  · rw [DeleteQueryWriter.toQuery, if_pos h]
  · by_cases ht : s.targets = ""
    · rw [DeleteQueryWriter.toQuery, if_pos ht] at he
      exact (Except.error.inj he).symm
    · rw [toQuery_eq_fragments s ht] at he
      exact Except.noConfusion he
  · exact ⟨_, toQuery_eq_fragments s h⟩

/-- Witness for C3 (amended): a state with non-empty targets renders
without raising. -/
theorem toQuery_fails_iff_no_targets_witness :
    ∃ q, DeleteQueryWriter.toQuery plainState = .ok q :=
  (toQuery_fails_iff_no_targets plainState).2.2 (by decide)

/-- Counterexample to C4 as stated: `return(mode)` does not clear
`returnFields` — on a state holding `["name"]` the result still holds
`["name"]`, not the empty list the claim requires. -/
theorem return_keeps_returnFields :
    (DeleteQueryWriter.return_ fieldsState .after).returnFields = ["name"] ∧
    (DeleteQueryWriter.return_ fieldsState .after).returnFields ≠ [] := by
  constructor <;> decide

/-- Claim C4 (amended): `return(m)` sets `returnMode = m` and leaves
every other field, `returnFields` included, equal to the input
state's. -/
theorem return_sets_mode_only (s : DeleteQueryState) (m : ReturnMode) :
    (DeleteQueryWriter.return_ s m).returnMode = some (.mode m) ∧
    (DeleteQueryWriter.return_ s m).schema = s.schema ∧
    (DeleteQueryWriter.return_ s m).quantity = s.quantity ∧
    (DeleteQueryWriter.return_ s m).targets = s.targets ∧
    (DeleteQueryWriter.return_ s m).where_ = s.where_ ∧
    (DeleteQueryWriter.return_ s m).returnFields = s.returnFields ∧
    (DeleteQueryWriter.return_ s m).timeout = s.timeout ∧
    (DeleteQueryWriter.return_ s m).parallel = s.parallel ∧
    (DeleteQueryWriter.return_ s m).unrelate = s.unrelate :=
  ⟨rfl, rfl, rfl, rfl, rfl, rfl, rfl, rfl, rfl⟩

/-- Claim C5: an unset or zero timeout contributes no TIMEOUT fragment
(a zero timeout renders identically to an unset one), and a nonzero
timeout `n` contributes exactly ` TIMEOUT <n>s`. -/
theorem timeout_render (s : DeleteQueryState) (h : s.targets ≠ "") :
    (s.timeout = none ∨ s.timeout = some 0 →
      DeleteQueryWriter.toQuery s =
        .ok ("DELETE " ++ s.targets ++ whereFragment s.where_
          ++ returnFragment s.returnMode s.returnFields
          ++ parallelFragment s.parallel)) ∧
    (∀ n : Int, s.timeout = some n → n ≠ 0 →
      DeleteQueryWriter.toQuery s =
        .ok ("DELETE " ++ s.targets ++ whereFragment s.where_
          ++ returnFragment s.returnMode s.returnFields
          ++ (" TIMEOUT " ++ toString n ++ "s") ++ parallelFragment s.parallel)) ∧
    DeleteQueryWriter.toQuery { s with timeout := some 0 } =
      DeleteQueryWriter.toQuery { s with timeout := none } := by
  refine ⟨fun h0 => ?_, fun n hn hn2 => ?_, ?_⟩
  · rw [toQuery_eq_fragments s h]
    rcases h0 with h0 | h0 <;> rw [h0] <;> simp [timeoutFragment]
  · rw [toQuery_eq_fragments s h, hn]
    simp [timeoutFragment, hn2, String.append_assoc]
  · rw [toQuery_eq_fragments { s with timeout := some 0 } h,
      toQuery_eq_fragments { s with timeout := none } h]
    simp [timeoutFragment]

/-- Witness for C5: a relation-delete writer with timeout 5 renders
with ` TIMEOUT 5s`. -/
theorem timeout_render_witness :
    DeleteQueryWriter.toQuery
      (DeleteQueryWriter.timeout (delRelation ⟨"knows", "person:1", "person:2"⟩) 5) =
      .ok "DELETE knows WHERE in = person:1 AND out = person:2 RETURN BEFORE TIMEOUT 5s" := by
  have h := (timeout_render
    (DeleteQueryWriter.timeout (delRelation ⟨"knows", "person:1", "person:2"⟩) 5)
    (by decide)).2.1 5 rfl (by decide)
  exact h.trans rfl

/-- Claim C6: `del` fails with a `CirqlWriterError` on zero targets and
on any list-like target, producing no state; otherwise it returns the
initial bulk-delete state with the comma-joined safely rendered
targets, quantity `many` and `unrelate` false. -/
theorem del_spec (ts : List SurrealValue) :
    (ts = [] → del ts = .error (.cirqlWriterError "At least one target must be specified")) ∧
    (isListLike ts = true →
      del ts = .error (.cirqlWriterError "Multiple targets must be specified seperately")) ∧
    (ts ≠ [] → isListLike ts = false →
      del ts = .ok
        { schema := none, quantity := .many,
          targets := String.intercalate ", " (ts.map useSurrealValueUnsafe),
          where_ := none, returnMode := some (.mode .before), returnFields := [],
          timeout := none, parallel := false, unrelate := false }) := by
  refine ⟨fun h => ?_, fun h => ?_, fun h1 h2 => ?_⟩
  · subst h; rfl
  · have hne : ts ≠ [] := by rintro rfl; simp [isListLike] at h
    rw [del, if_neg (by simpa using hne), if_pos h]
  · rw [del, if_neg (by simpa using h1), if_neg (by simp [h2])]

/-- Witness for C6: `del("person", "dog")` builds the expected initial
state. -/
theorem del_spec_witness :
    del [SurrealValue.scalar "person", SurrealValue.scalar "dog"] =
      .ok { schema := none, quantity := .many, targets := "person, dog",
            where_ := none, returnMode := some (.mode .before), returnFields := [],
            timeout := none, parallel := false, unrelate := false } := by
  have h := (del_spec [SurrealValue.scalar "person", SurrealValue.scalar "dog"]).2.2
    (by decide) (by decide)
  exact h.trans rfl

/-- Counterexample to C7 as stated: the `returnFields` operation
replaces two fields (`returnMode` and `returnFields`), so its output
differs from the input state in more than one field. -/
theorem returnFields_changes_two_fields :
    fieldDiffCount plainState (DeleteQueryWriter.returnFields plainState ["name"]) = 2 ∧
    ¬ fieldDiffCount plainState (DeleteQueryWriter.returnFields plainState ["name"]) ≤ 1 := by
  constructor <;> decide

/-- Claim C7 (amended): every configuration operation except
`returnFields` returns a state differing from its input in at most one
field; `returnFields` replaces at most the two fields `returnMode` and
`returnFields` and leaves all others equal. -/
theorem config_ops_frame (s : DeleteQueryState) :
    (∀ sch, fieldDiffCount s (DeleteQueryWriter.with_ s sch) ≤ 1) ∧
    (∀ w s2, DeleteQueryWriter.where_ s w = .ok s2 → fieldDiffCount s s2 ≤ 1) ∧
    (∀ m, fieldDiffCount s (DeleteQueryWriter.return_ s m) ≤ 1) ∧
    (∀ fs, fieldDiffCount s (DeleteQueryWriter.returnFields s fs) ≤ 2 ∧
      (DeleteQueryWriter.returnFields s fs).schema = s.schema ∧
      (DeleteQueryWriter.returnFields s fs).quantity = s.quantity ∧
      (DeleteQueryWriter.returnFields s fs).targets = s.targets ∧
      (DeleteQueryWriter.returnFields s fs).where_ = s.where_ ∧
      (DeleteQueryWriter.returnFields s fs).timeout = s.timeout ∧
      (DeleteQueryWriter.returnFields s fs).parallel = s.parallel ∧
      (DeleteQueryWriter.returnFields s fs).unrelate = s.unrelate) ∧
    (∀ t, fieldDiffCount s (DeleteQueryWriter.timeout s t) ≤ 1) ∧
    fieldDiffCount s (DeleteQueryWriter.parallel s) ≤ 1 := by
  refine ⟨fun sch => ?_, fun w s2 hok => ?_, fun m => ?_, fun fs => ?_, fun t => ?_, ?_⟩
  · simp [fieldDiffCount, DeleteQueryWriter.with_]
    split_ifs <;> simp
  · rw [DeleteQueryWriter.where_] at hok
    split at hok
    · exact Except.noConfusion hok
    · rw [Except.ok.injEq] at hok
      subst hok
      simp [fieldDiffCount]
      split_ifs <;> simp
  · simp [fieldDiffCount, DeleteQueryWriter.return_]
    split_ifs <;> simp
  · refine ⟨?_, rfl, rfl, rfl, rfl, rfl, rfl, rfl⟩
    simp [fieldDiffCount, DeleteQueryWriter.returnFields]
    split_ifs <;> simp
  · simp [fieldDiffCount, DeleteQueryWriter.timeout]
    split_ifs <;> simp
  · simp [fieldDiffCount, DeleteQueryWriter.parallel]
    split_ifs <;> simp

/-- Witness for C7 (amended): a successful `where` call changes at most
one field. -/
theorem config_ops_frame_witness :
    fieldDiffCount plainState { plainState with where_ := some "x" } ≤ 1 :=
  (config_ops_frame plainState).2.1 (.str "x") { plainState with where_ := some "x" } rfl

/-- Claim C8: applying `return`, `timeout` and `parallel` with fixed
arguments in any of the six orders renders to the same query string. -/
theorem config_order_independent (s : DeleteQueryState) (m : ReturnMode) (t : Int) :
    DeleteQueryWriter.toQuery
        (DeleteQueryWriter.parallel (DeleteQueryWriter.timeout (DeleteQueryWriter.return_ s m) t)) =
      DeleteQueryWriter.toQuery
        (DeleteQueryWriter.parallel (DeleteQueryWriter.return_ (DeleteQueryWriter.timeout s t) m)) ∧
    DeleteQueryWriter.toQuery
        (DeleteQueryWriter.parallel (DeleteQueryWriter.timeout (DeleteQueryWriter.return_ s m) t)) =
      DeleteQueryWriter.toQuery
        (DeleteQueryWriter.timeout (DeleteQueryWriter.parallel (DeleteQueryWriter.return_ s m)) t) ∧
    DeleteQueryWriter.toQuery
        (DeleteQueryWriter.parallel (DeleteQueryWriter.timeout (DeleteQueryWriter.return_ s m) t)) =
      DeleteQueryWriter.toQuery
        (DeleteQueryWriter.timeout (DeleteQueryWriter.return_ (DeleteQueryWriter.parallel s) m) t) ∧
    DeleteQueryWriter.toQuery
        (DeleteQueryWriter.parallel (DeleteQueryWriter.timeout (DeleteQueryWriter.return_ s m) t)) =
      DeleteQueryWriter.toQuery
        (DeleteQueryWriter.return_ (DeleteQueryWriter.parallel (DeleteQueryWriter.timeout s t)) m) ∧
    DeleteQueryWriter.toQuery
        (DeleteQueryWriter.parallel (DeleteQueryWriter.timeout (DeleteQueryWriter.return_ s m) t)) =
      DeleteQueryWriter.toQuery
        (DeleteQueryWriter.return_ (DeleteQueryWriter.timeout (DeleteQueryWriter.parallel s) t) m) :=
  ⟨rfl, rfl, rfl, rfl, rfl⟩

/-- Claim C9: the attached result schema never affects the rendered
text: attaching any schema by `with`, `withSchema` or `withAny` leaves
`toQuery` unchanged, and any two attachments render identically. -/
theorem schema_inert (s : DeleteQueryState) (a b : ZodSchema) (sa sb : List String) :
    DeleteQueryWriter.toQuery (DeleteQueryWriter.with_ s a) = DeleteQueryWriter.toQuery s ∧
    DeleteQueryWriter.toQuery (DeleteQueryWriter.withSchema s sa) = DeleteQueryWriter.toQuery s ∧
    DeleteQueryWriter.toQuery (DeleteQueryWriter.withAny s) = DeleteQueryWriter.toQuery s ∧
    DeleteQueryWriter.toQuery (DeleteQueryWriter.with_ s a) =
      DeleteQueryWriter.toQuery (DeleteQueryWriter.with_ s b) ∧
    DeleteQueryWriter.toQuery (DeleteQueryWriter.withSchema s sa) =
      DeleteQueryWriter.toQuery (DeleteQueryWriter.withSchema s sb) :=
  ⟨rfl, rfl, rfl, rfl, rfl⟩

/-- Claim C10: on a non-relation-delete state, `where("")` succeeds and
stores the empty string, and the result renders identically to the same
state with no filter at all (the renderer tests truthiness, not
presence). -/
theorem where_empty_string (s : DeleteQueryState) (h : s.unrelate = false) :
    DeleteQueryWriter.where_ s (.str "") = .ok { s with where_ := some "" } ∧
    DeleteQueryWriter.toQuery { s with where_ := some "" } =
      DeleteQueryWriter.toQuery { s with where_ := none } := by
  constructor
  · rw [DeleteQueryWriter.where_, if_neg (by simp [h])]
    rfl
  · by_cases ht : s.targets = ""
    · rw [DeleteQueryWriter.toQuery, DeleteQueryWriter.toQuery]
      simp [ht]
    · rw [toQuery_eq_fragments { s with where_ := some "" } ht,
        toQuery_eq_fragments { s with where_ := none } ht]
      simp [whereFragment]

/-- Witness for C10: `where("")` on a concrete bulk-delete state. -/
theorem where_empty_string_witness :
    DeleteQueryWriter.where_ plainState (.str "") = .ok { plainState with where_ := some "" } ∧
    DeleteQueryWriter.toQuery { plainState with where_ := some "" } =
      DeleteQueryWriter.toQuery { plainState with where_ := none } :=
  where_empty_string plainState rfl


end Cirql
